import Mathlib

/-!
# Verification of the TrueNAS tunable troubleshooting scripts

Shallow embedding of `troubleshooting/validate_tunables.py` and
`troubleshooting/cleanup_test_tunables.py`.

The scripts drive a remote REST API.  We model each HTTP interaction by an
explicit "world" value that records, for every request the code may issue,
either the response the appliance would return (`HttpResult.ok`) or the fact
that the client library raises a transport exception (`HttpResult.exn`).
The embedded functions are then pure functions of the world, mirroring the
Python control flow statement by statement.

Real time is abstracted: the job-monitor's wall-clock timeout becomes a
poll budget (`fuel`, the number of loop iterations the timeout allows), and
the `time.sleep` calls the loop performs are recorded in an explicit trace
of sleep durations in milliseconds (`500` for `time.sleep(0.5)`, `2000` for
the `time.sleep(2)` grace wait).
-/

set_option autoImplicit false

/-- Outcome of one HTTP request: a response the client parsed, or a raised
transport exception (`requests` exception, connection error, ...). -/
inductive HttpResult (α : Type) where
  | ok (v : α)
  | exn
  deriving DecidableEq

/-- A job record as returned by `GET /core/get_jobs`; the scripts only read
`job.get('state')`, which is `None` when the key is missing. -/
structure Job where
  state : Option String
  deriving DecidableEq

/-- A tunable record as returned by `GET /tunable`.  The scripts access the
fields with `dict.get`, so every field is optional. -/
structure RemoteTunable where
  id : Option Int
  var : Option String
  comment : Option String
  enabled : Option Bool
  deriving DecidableEq

/-- The static tunable definitions (`@dataclass Tunable` in
`validate_tunables.py`). -/
structure Tunable where
  name : String
  type : String
  value : String
  description : String
  deriving DecidableEq

/-- One poll of `GET /core/get_jobs`: either an exception, or a status code
together with the decoded job list (the body is only read when the status
is 200). -/
abbrev JobPoll := HttpResult (Nat × List Job)

/-- The check `job.get('state') in ['RUNNING', 'WAITING']` from the monitor loop. -/
def isRunningOrWaiting (j : Job) : Bool :=
  j.state == some "RUNNING" || j.state == some "WAITING"

/-- Body of `TrueNASAPI.monitor_jobs` (validate_tunables.py lines 42-90;
`monitor_jobs` in cleanup_test_tunables.py lines 20-46 is identical).
`fuel` is the number of iterations the wall-clock timeout admits, `i` the
index of the next poll, `polls` the world's response to each poll.  Returns
the boolean result together with the trace of sleeps (ms) performed. -/
def monitorGo : Nat → Nat → (Nat → JobPoll) → Bool × List Nat
  | 0, _, _ => (false, [])            -- while-condition fails: timeout reached
  | fuel + 1, i, polls =>
    match polls i with
    | .ok (status, jobs) =>
      if status == 200 then
        -- if not jobs or len(jobs) == 0: return True
        if jobs.isEmpty then (true, [])
        else if (jobs.filter isRunningOrWaiting).isEmpty then (true, [])
        else
          -- time.sleep(0.5) and loop again
          ((monitorGo fuel (i + 1) polls).1, 500 :: (monitorGo fuel (i + 1) polls).2)
      else
        -- non-200: time.sleep(2); return True
        (true, [2000])
    | .exn =>
      -- exception while polling: time.sleep(2); return True
      (true, [2000])

namespace TrueNASAPI

/-- Embedding of `TrueNASAPI.monitor_jobs(timeout_seconds)` with the timeout abstracted
to a poll budget.  (The `debug` parameter only controls printing.) -/
def monitor_jobs (fuel : Nat) (polls : Nat → JobPoll) : Bool × List Nat :=
  monitorGo fuel 0 polls

end TrueNASAPI

/-- The JSON body of a successful `POST /tunable` response: either an object
(whose `id` key may be missing) or a bare value; the code runs
`result.get("id") if isinstance(result, dict) else result`. -/
inductive PostBody where
  | obj (id : Option Int)
  | raw (v : Int)
  deriving DecidableEq

/-- The expression `result.get("id") if isinstance(result, dict) else result`. -/
def creationIdOf (body : PostBody) : Option Int :=
  match body with
  | .obj i => i
  | .raw v => some v

/-- World for one `TrueNASAPI.create_tunable` call: the `POST /tunable`
response (status and decoded body), the job polls seen by the embedded
`monitor_jobs` call with its poll budget, the follow-up `GET /tunable`
response, and the error text the code would extract from a non-200 POST
response body. -/
structure CreateWorld where
  postResp : HttpResult (Nat × PostBody)
  jobFuel : Nat
  jobPolls : Nat → JobPoll
  listResp : HttpResult (Nat × List RemoteTunable)
  errorText : String

/-- The request body built by `TrueNASAPI.create_tunable`
(validate_tunables.py lines 94-100): the comment is the description
truncated to 255 characters. -/
structure TunableCreateBody where
  var : String
  value : String
  type : String
  comment : String
  enabled : Bool
  deriving DecidableEq

/-- The dict `data = {"var": ..., "value": ..., "type": ..., "comment":
tunable.description[:255], "enabled": True}`. -/
def createRequestBody (t : Tunable) : TunableCreateBody :=
  { var := t.name
    value := t.value
    type := t.type
    comment := t.description.take 255
    enabled := true }

namespace TrueNASAPI

/-- Embedding of `TrueNASAPI.create_tunable` (validate_tunables.py lines 92-141).
Returns `(success, tunable_id, message)`.  The POST sends
`createRequestBody t`; the world describes the appliance's responses.  A
raised exception anywhere in the body is caught by the outer handlers and
turned into `(False, None, ...)`. -/
def create_tunable (w : CreateWorld) (t : Tunable) : Bool × Option Int × String :=
  match w.postResp with
  | .exn => (false, none, "Request error")
  | .ok (status, body) =>
    if status == 200 then
      let creation_id := creationIdOf body
      -- job monitoring; the timeout is 30s for ZFS tunables, 15s otherwise,
      -- abstracted here to the world's poll budget; the result only drives a
      -- warning print
      let _ := monitor_jobs w.jobFuel w.jobPolls
      match w.listResp with
      | .exn =>
        -- the GET raises inside the outer try: caught as a request error
        (false, none, "Request error")
      | .ok (vstatus, tunables) =>
        if vstatus == 200 then
          match tunables.find? (fun r => r.var == some t.name) with
          | some r => (true, r.id, "Created successfully (actual ID)")
          | none => (true, creation_id, "Created successfully (creation ID)")
        else (true, creation_id, "Created successfully (creation ID)")
    else (false, none, s!"HTTP {status}: {w.errorText}")

/-- Embedding of `TrueNASAPI.get_tunable` (validate_tunables.py lines 143-173), with the
`GET /tunable` response supplied by `listResp`.  Searches by id first, then
by name when `tunable_name` is truthy. -/
def get_tunable (listResp : HttpResult (Nat × List RemoteTunable))
    (tunable_id : Option Int) (tunable_name : Option String) : Bool × String :=
  match listResp with
  | .exn => (false, "Error checking tunable")
  | .ok (status, tunables) =>
    if status == 200 then
      match tunables.find? (fun r => r.id == tunable_id) with
      | some _ => (true, "found by id")
      | none =>
        -- `if tunable_name:` — None and "" are both falsy
        if (match tunable_name with | some n => n != "" | none => false) then
          match tunables.find? (fun r => r.var == tunable_name) with
          | some _ => (true, "found by name")
          | none => (false, "Tunable not found in system")
        else (false, "Tunable not found in system")
    else (false, s!"Cannot verify tunable: HTTP {status}")

end TrueNASAPI

/-- World for one `TrueNASAPI.delete_tunable` call: the `DELETE` response,
the job polls of the monitor run after a 200/204 delete, the verification
`GET /tunable` response, the disable `PUT` response, and the job polls of
the monitor run after a 200 PUT. -/
structure DeleteWorld where
  deleteResp : HttpResult Nat
  jobFuel1 : Nat
  jobPolls1 : Nat → JobPoll
  verifyResp : HttpResult (Nat × List RemoteTunable)
  putResp : HttpResult Nat
  jobFuel2 : Nat
  jobPolls2 : Nat → JobPoll

/-- Result of `TrueNASAPI.delete_tunable`, extended with how many times the
disable `PUT` request was issued. -/
structure DeleteResult where
  success : Bool
  message : String
  putCalls : Nat
  deriving DecidableEq

namespace TrueNASAPI

/-- Embedding of `TrueNASAPI.delete_tunable` (validate_tunables.py lines 175-210).
Method 1: `DELETE /tunable/id/{id}`; on 200/204, monitor jobs, then list and
return success when the id is gone.  Method 2 (reached when the DELETE
status is not 200/204, the verification status is not 200, or the id is
still present): `PUT {"enabled": False}`; 200 means "Disabled successfully".
Any raised exception is caught by the outer handler as a failure. -/
def delete_tunable (w : DeleteWorld) (tunable_id : Option Int) : DeleteResult :=
  let tryDisable : DeleteResult :=
    match w.putResp with
    | .exn => ⟨false, "Delete error", 1⟩
    | .ok pstatus =>
      if pstatus == 200 then
        let _ := monitor_jobs w.jobFuel2 w.jobPolls2
        ⟨true, "Disabled successfully", 1⟩
      else ⟨false, s!"Failed to delete tunable {tunable_id} (HTTP {pstatus})", 1⟩
  match w.deleteResp with
  | .exn => ⟨false, "Delete error", 0⟩
  | .ok status =>
    if status == 200 || status == 204 then
      let _ := monitor_jobs w.jobFuel1 w.jobPolls1
      match w.verifyResp with
      | .exn => ⟨false, "Delete error", 0⟩
      | .ok (vstatus, tunables) =>
        if vstatus == 200 && !(tunables.any (fun r => r.id == tunable_id)) then
          ⟨true, "Deleted successfully", 0⟩
        else tryDisable
    else tryDisable

end TrueNASAPI

/-- A poll on which the monitor loop keeps going: HTTP 200, a non-empty job
list, and at least one job in state RUNNING or WAITING. -/
def pollContinues (p : JobPoll) : Bool :=
  match p with
  | .ok (status, jobs) =>
    status == 200 && !jobs.isEmpty && !(jobs.filter isRunningOrWaiting).isEmpty
  | .exn => false

/-- A poll that terminates the loop successfully through the job list: HTTP
200 and either an empty list or no RUNNING/WAITING job. -/
def pollTerminalOk (p : JobPoll) : Bool :=
  match p with
  | .ok (status, jobs) =>
    status == 200 && (jobs.isEmpty || (jobs.filter isRunningOrWaiting).isEmpty)
  | .exn => false

/-- A transport failure seen by the monitor: exception or non-200 status. -/
def pollTransportFail (p : JobPoll) : Bool :=
  match p with
  | .ok (status, _) => status != 200
  | .exn => true

/-! ## Selective cleanup filter (cleanup_test_tunables.py, `main`) -/

/-- The list `test_keywords` (cleanup_test_tunables.py line 119). -/
def test_keywords : List String :=
  ["test", "validation", "performance tunable test"]

/-- The set `performance_tunable_names` (cleanup_test_tunables.py lines 120-125). -/
def performance_tunable_names : List String :=
  ["vm.swappiness", "vm.vfs_cache_pressure", "vm.dirty_ratio",
   "vm.dirty_background_ratio", "vm.dirty_expire_centisecs",
   "vm.min_free_kbytes", "kernel.shmmax", "kernel.shmall",
   "net.core.rmem_max", "net.core.wmem_max", "zfs_arc_max", "zfs_arc_min"]

/-- Python's `str.lower()`: lowercase character by character. -/
def strLower (s : String) : String :=
  ⟨s.data.map Char.toLower⟩

/-- Python's `needle in hay` substring test on strings. -/
def strContainsSub (hay needle : String) : Bool :=
  (List.range (hay.data.length + 1)).any
    (fun i => needle.data.isPrefixOf (hay.data.drop i))

/-- The selective cleanup candidate test (cleanup_test_tunables.py lines
128-137): the lowercased comment contains one of the keywords, or the var
is one of the known performance-tunable names. -/
def isTestTunable (t : RemoteTunable) : Bool :=
  let comment := strLower (t.comment.getD "")
  let var_name := t.var.getD ""
  let matchesKeyword := test_keywords.any (fun k => strContainsSub comment k)
  let matchesName := performance_tunable_names.contains var_name
  matchesKeyword || matchesName

/-! ## Validation workflow (validate_tunables.py, `main`, lines 349-418) -/

/-- The responses the appliance gives while one `TunableSpec` is processed
by the validation loop: one create call, one verification list, one delete
call. -/
structure SpecWorld where
  createW : CreateWorld
  getListResp : HttpResult (Nat × List RemoteTunable)
  deleteW : DeleteWorld

/-- One iteration of the validation loop (validate_tunables.py lines
349-378): create; on failure record the spec as invalid with the create
message; otherwise verify (warning only) and delete-or-disable (the spec is
recorded as valid in both the deleted and the not-deleted branch). -/
def validationStep (t : Tunable) (w : SpecWorld) : Sum Tunable (Tunable × String) :=
  let c := TrueNASAPI.create_tunable w.createW t
  if c.1 then
    let _ := TrueNASAPI.get_tunable w.getListResp c.2.1 (some t.name)
    let d := TrueNASAPI.delete_tunable w.deleteW c.2.1
    if d.success then Sum.inl t else Sum.inl t
  else Sum.inr (t, "Create failed: " ++ c.2.2)

/-- Appending a loop iteration's outcome to the `valid_tunables` /
`invalid_tunables` accumulators. -/
def accumStep (acc : List Tunable × List (Tunable × String))
    (p : Tunable × SpecWorld) : List Tunable × List (Tunable × String) :=
  match validationStep p.1 p.2 with
  | Sum.inl t => (acc.1 ++ [t], acc.2)
  | Sum.inr e => (acc.1, acc.2 ++ [e])

/-- The whole loop: accumulates `valid_tunables` and `invalid_tunables` in
order. -/
def runValidation (pairs : List (Tunable × SpecWorld)) :
    List Tunable × List (Tunable × String) :=
  pairs.foldl accumStep ([], [])

/-- Whether the create phase of a loop iteration succeeds. -/
def createOk (p : Tunable × SpecWorld) : Bool :=
  (TrueNASAPI.create_tunable p.2.createW p.1).1

/-- The invalid-accumulator entry produced for a spec whose create failed. -/
def invalidEntry (p : Tunable × SpecWorld) : Tunable × String :=
  (p.1, "Create failed: " ++ (TrueNASAPI.create_tunable p.2.createW p.1).2.2)

/-- The exit of `main` (validate_tunables.py lines 413-418):
`sys.exit(1)` when `invalid_tunables` is non-empty, else `sys.exit(0)`. -/
def mainExitCode (pairs : List (Tunable × SpecWorld)) : Nat :=
  if !(runValidation pairs).2.isEmpty then 1 else 0

/-! ## Claim-side predicates for the two-phase delete -/

/-- The hard-delete phase left the system in the desired state: the DELETE
returned 200/204 and the subsequent list (status 200) no longer contains
the id. -/
def hardDeleteLeavesAbsent (w : DeleteWorld) (tunable_id : Option Int) : Bool :=
  match w.deleteResp, w.verifyResp with
  | .ok status, .ok (vstatus, tunables) =>
    (status == 200 || status == 204) && vstatus == 200 &&
      !(tunables.any (fun r => r.id == tunable_id))
  | _, _ => false

/-- The hard delete went through (200/204) but the record is still present
in the subsequent list (status 200). -/
def recordStillPresent (w : DeleteWorld) (tunable_id : Option Int) : Bool :=
  match w.deleteResp, w.verifyResp with
  | .ok status, .ok (vstatus, tunables) =>
    (status == 200 || status == 204) && vstatus == 200 &&
      tunables.any (fun r => r.id == tunable_id)
  | _, _ => false

/-- The list endpoint of the world reports the id absent (status 200 and no
matching record). -/
def listReportsAbsent (w : DeleteWorld) (tunable_id : Option Int) : Bool :=
  match w.verifyResp with
  | .ok (vstatus, tunables) =>
    vstatus == 200 && !(tunables.any (fun r => r.id == tunable_id))
  | .exn => false

/-! ## Job-monitor theorems -/

theorem pollContinues_ok_iff (status : Nat) (jobs : List Job) :
    pollContinues (.ok (status, jobs)) = true ↔
      (status == 200) = true ∧ jobs.isEmpty = false ∧
        (jobs.filter isRunningOrWaiting).isEmpty = false := by
  simp only [pollContinues, Bool.and_eq_true, Bool.not_eq_true', and_assoc]

theorem monitorGo_step (fuel i : Nat) (polls : Nat → JobPoll)
    (hc : pollContinues (polls i) = true) :
    monitorGo (fuel + 1) i polls =
      ((monitorGo fuel (i + 1) polls).1, 500 :: (monitorGo fuel (i + 1) polls).2) := by
  match hp : polls i with
  | .exn => rw [hp] at hc; exact absurd hc (by simp [pollContinues])
  | .ok (status, jobs) =>
    rw [hp, pollContinues_ok_iff] at hc
    obtain ⟨hs, he, hr⟩ := hc
    simp only [monitorGo, hp, hs, if_true, he, Bool.false_eq_true, if_false, hr]

theorem monitorGo_exit (fuel i : Nat) (polls : Nat → JobPoll)
    (hc : pollContinues (polls i) = false) :
    (monitorGo (fuel + 1) i polls).1 = true := by
  match hp : polls i with
  | .exn => simp [monitorGo, hp]
  | .ok (status, jobs) =>
    rw [hp] at hc
    rcases Bool.eq_false_or_eq_true (status == 200) with hs | hs
    · rcases Bool.eq_false_or_eq_true jobs.isEmpty with he | he
      · simp [monitorGo, hp, hs, he]
      · rcases Bool.eq_false_or_eq_true (jobs.filter isRunningOrWaiting).isEmpty with hr | hr
        · simp [monitorGo, hp, hs, he, hr]
        · exfalso
          have hcon : pollContinues (.ok (status, jobs)) = true :=
            (pollContinues_ok_iff status jobs).mpr ⟨hs, he, hr⟩
          exact Bool.noConfusion (hcon.symm.trans hc)
    · simp [monitorGo, hp, hs]

theorem monitorGo_false_iff (fuel : Nat) : ∀ (i : Nat) (polls : Nat → JobPoll),
    (monitorGo fuel i polls).1 = false ↔ ∀ k, k < fuel → pollContinues (polls (i + k)) = true := by
  induction fuel with
  | zero => intro i polls; simp [monitorGo]
  | succ fuel ih =>
    intro i polls
    rcases Bool.eq_false_or_eq_true (pollContinues (polls i)) with hc | hc
    case inr =>
      refine iff_of_false ?_ ?_
      · rw [monitorGo_exit fuel i polls hc]; simp
      · intro h
        have h0 := h 0 (Nat.succ_pos fuel)
        rw [Nat.add_zero] at h0
        exact Bool.noConfusion (h0.symm.trans hc)
    case inl =>
      rw [monitorGo_step fuel i polls hc]
      simp only
      rw [ih (i + 1) polls]
      constructor
      · intro h k hk
        match k with
        | 0 => rw [Nat.add_zero]; exact hc
        | k + 1 =>
          have hh := h k (Nat.lt_of_succ_lt_succ hk)
          have harg : i + 1 + k = i + (k + 1) := by omega
          rwa [harg] at hh
      · intro h k hk
        have hh := h (k + 1) (Nat.succ_lt_succ hk)
        have harg : i + (k + 1) = i + 1 + k := by omega
        rwa [harg] at hh

theorem monitorGo_skip (k : Nat) : ∀ (fuel i : Nat) (polls : Nat → JobPoll), k ≤ fuel →
    (∀ j, j < k → pollContinues (polls (i + j)) = true) →
    monitorGo fuel i polls =
      ((monitorGo (fuel - k) (i + k) polls).1,
        List.replicate k 500 ++ (monitorGo (fuel - k) (i + k) polls).2) := by
  induction k with
  | zero => intro fuel i polls _ _; simp
  | succ k ih =>
    intro fuel i polls hk hcont
    match fuel, hk with
    | fuel + 1, hk =>
      have hc := hcont 0 (Nat.succ_pos k)
      rw [Nat.add_zero] at hc
      have hrec := ih fuel (i + 1) polls (Nat.le_of_succ_le_succ hk) (by
        intro j hj
        have hh := hcont (j + 1) (Nat.succ_lt_succ hj)
        have harg : i + (j + 1) = i + 1 + j := by omega
        rwa [harg] at hh)
      rw [monitorGo_step fuel i polls hc, hrec]
      have hidx : i + 1 + k = i + (k + 1) := by omega
      have hfuel : fuel - k = fuel + 1 - (k + 1) := by omega
      rw [hidx, hfuel]
      simp [List.replicate_succ]

theorem monitorGo_terminal (fuel i : Nat) (polls : Nat → JobPoll)
    (h : pollTerminalOk (polls i) = true) :
    monitorGo (fuel + 1) i polls = (true, []) := by
  match hp : polls i with
  | .exn => rw [hp] at h; exact absurd h (by simp [pollTerminalOk])
  | .ok (status, jobs) =>
    rw [hp] at h
    have hs : (status == 200) = true := by
      simp only [pollTerminalOk, Bool.and_eq_true] at h; exact h.1
    have hor : jobs.isEmpty = true ∨ (jobs.filter isRunningOrWaiting).isEmpty = true := by
      simp only [pollTerminalOk, Bool.and_eq_true, Bool.or_eq_true] at h; exact h.2
    rcases hor with he | hr
    · simp [monitorGo, hp, hs, he]
    · rcases Bool.eq_false_or_eq_true jobs.isEmpty with he | he
      · simp [monitorGo, hp, hs, he]
      · simp [monitorGo, hp, hs, he, hr]

theorem monitorGo_fail (fuel i : Nat) (polls : Nat → JobPoll)
    (h : pollTransportFail (polls i) = true) :
    monitorGo (fuel + 1) i polls = (true, [2000]) := by
  match hp : polls i with
  | .exn => simp [monitorGo, hp]
  | .ok (status, jobs) =>
    rw [hp] at h
    have hs : (status == 200) = false := by
      simp only [pollTransportFail, bne_iff_ne, ne_eq] at h
      simp [h]
    simp [monitorGo, hp, hs]

/-- C2: the job monitor returns true as soon as a poll yields an empty job
list or a list with no RUNNING/WAITING job, and returns false only when the
poll budget (the timeout) is exhausted while every successful poll still
contained a RUNNING or WAITING job. -/
theorem claim_C2_monitor_termination (fuel : Nat) (polls : Nat → JobPoll) :
    ((TrueNASAPI.monitor_jobs fuel polls).1 = false ↔
        ∀ k, k < fuel → pollContinues (polls k) = true)
    ∧ (∀ k, k < fuel → (∀ j, j < k → pollContinues (polls j) = true) →
        pollTerminalOk (polls k) = true →
        TrueNASAPI.monitor_jobs fuel polls = (true, List.replicate k 500)) := by
  constructor
  · have h := monitorGo_false_iff fuel 0 polls
    simpa [TrueNASAPI.monitor_jobs] using h
  · intro k hk hpre hterm
    have hskip := monitorGo_skip k fuel 0 polls (Nat.le_of_lt hk) (by simpa using hpre)
    rw [TrueNASAPI.monitor_jobs, hskip]
    obtain ⟨m, hm⟩ : ∃ m, fuel - k = m + 1 := ⟨fuel - k - 1, by omega⟩
    rw [hm, Nat.zero_add, monitorGo_terminal m k polls hterm]
    simp

/-- A poll trace whose first poll is a running job and whose later polls
report a finished job. -/
def c2Polls : Nat → JobPoll
  | 0 => .ok (200, [⟨some "RUNNING"⟩])
  | _ + 1 => .ok (200, [⟨some "SUCCESS"⟩])

theorem claim_C2_witness :
    TrueNASAPI.monitor_jobs 5 c2Polls = (true, List.replicate 1 500) :=
  (claim_C2_monitor_termination 5 c2Polls).2 1 (by decide) (by decide) (by decide)

/-- C3: on a transport failure (exception or non-200 response) on any poll
the loop reaches, the monitor returns true, its final recorded sleep being
the fixed 2000 ms grace wait. -/
theorem claim_C3_monitor_transport_failure (fuel : Nat) (polls : Nat → JobPoll)
    (k : Nat) (hk : k < fuel)
    (hpre : ∀ j, j < k → pollContinues (polls j) = true)
    (hfail : pollTransportFail (polls k) = true) :
    TrueNASAPI.monitor_jobs fuel polls = (true, List.replicate k 500 ++ [2000]) := by
  have hskip := monitorGo_skip k fuel 0 polls (Nat.le_of_lt hk) (by simpa using hpre)
  rw [TrueNASAPI.monitor_jobs, hskip]
  obtain ⟨m, hm⟩ : ∃ m, fuel - k = m + 1 := ⟨fuel - k - 1, by omega⟩
  rw [hm, Nat.zero_add, monitorGo_fail m k polls hfail]

/-- A poll trace with one running-job poll and then a transport exception. -/
def c3Polls : Nat → JobPoll
  | 0 => .ok (200, [⟨some "RUNNING"⟩])
  | _ + 1 => .exn

theorem claim_C3_witness :
    TrueNASAPI.monitor_jobs 4 c3Polls = (true, List.replicate 1 500 ++ [2000]) :=
  claim_C3_monitor_transport_failure 4 c3Polls 1 (by decide) (by decide) (by decide)

/-! ## Two-phase delete theorems -/

/-- C1: the two-phase delete returns success iff either the hard-delete
phase left the record absent from the subsequent list, or the soft-disable
PUT was issued and returned 200; and whenever the hard delete leaves the
record present in the subsequent list, the PUT is issued exactly once and
its status decides the overall result.  Failure is therefore reported only
when neither phase left the system in the desired state. -/
theorem claim_C1_delete_two_phase (w : DeleteWorld) (tunable_id : Option Int) :
    ((TrueNASAPI.delete_tunable w tunable_id).success = true ↔
        hardDeleteLeavesAbsent w tunable_id = true ∨
          ((TrueNASAPI.delete_tunable w tunable_id).putCalls = 1 ∧
            w.putResp = HttpResult.ok 200))
    ∧ (recordStillPresent w tunable_id = true →
        (TrueNASAPI.delete_tunable w tunable_id).putCalls = 1 ∧
          ((TrueNASAPI.delete_tunable w tunable_id).success = true ↔
            w.putResp = HttpResult.ok 200)) := by
  obtain ⟨dr, f1, p1, vr, pr, f2, p2⟩ := w
  cases dr with
  | exn =>
    simp [TrueNASAPI.delete_tunable, hardDeleteLeavesAbsent, recordStillPresent]
  | ok status =>
    by_cases hst : (status == 200 || status == 204) = true
    · cases vr with
      | exn =>
        simp [TrueNASAPI.delete_tunable, hardDeleteLeavesAbsent,
          recordStillPresent, hst]
      | ok v =>
        obtain ⟨vstatus, tunables⟩ := v
        by_cases hvp : (vstatus == 200 &&
            !(tunables.any (fun r => r.id == tunable_id))) = true
        · have hv : (vstatus == 200) = true := by
            rw [Bool.and_eq_true] at hvp; exact hvp.1
          have ha : (tunables.any (fun r => r.id == tunable_id)) = false := by
            rw [Bool.and_eq_true] at hvp
            simpa using hvp.2
          simp [TrueNASAPI.delete_tunable, hardDeleteLeavesAbsent,
            recordStillPresent, hst, hvp, hv, ha]
        · have hpres : recordStillPresent ⟨.ok status, f1, p1, .ok (vstatus, tunables),
              pr, f2, p2⟩ tunable_id =
              (vstatus == 200 && tunables.any (fun r => r.id == tunable_id)) := by
            simp [recordStillPresent, hst]
          have habs : hardDeleteLeavesAbsent ⟨.ok status, f1, p1,
              .ok (vstatus, tunables), pr, f2, p2⟩ tunable_id = false := by
            simp only [hardDeleteLeavesAbsent, hst, Bool.true_and]
            simpa using hvp
          cases pr with
          | exn =>
            simp [TrueNASAPI.delete_tunable, hst, hvp, habs, hpres]
          | ok pstatus =>
            by_cases hp : (pstatus == 200) = true
            · have hp' : pstatus = 200 := by simpa using hp
              simp [TrueNASAPI.delete_tunable, hst, hvp, habs, hpres, hp, hp']
            · have hp' : ¬ pstatus = 200 := by simpa using hp
              simp [TrueNASAPI.delete_tunable, hst, hvp, habs, hpres, hp, hp']
    · have habs : hardDeleteLeavesAbsent ⟨.ok status, f1, p1, vr, pr, f2, p2⟩
          tunable_id = false := by
        cases vr <;> simp [hardDeleteLeavesAbsent, hst]
        
      have hpres : recordStillPresent ⟨.ok status, f1, p1, vr, pr, f2, p2⟩
          tunable_id = false := by
        cases vr <;> simp [recordStillPresent, hst]
      cases pr with
      | exn =>
        simp [TrueNASAPI.delete_tunable, hst, habs, hpres]
      | ok pstatus =>
        by_cases hp : (pstatus == 200) = true
        · have hp' : pstatus = 200 := by simpa using hp
          simp [TrueNASAPI.delete_tunable, hst, habs, hpres, hp, hp']
        · have hp' : ¬ pstatus = 200 := by simpa using hp
          simp [TrueNASAPI.delete_tunable, hst, habs, hpres, hp, hp']

/-- A delete world in which the hard delete reports 200 but the record is
still present in the follow-up list, and the disable PUT returns 200. -/
def c1World : DeleteWorld :=
  { deleteResp := .ok 200
    jobFuel1 := 0
    jobPolls1 := fun _ => .exn
    verifyResp := .ok (200, [⟨some 1, some "vm.swappiness", some "", some true⟩])
    putResp := .ok 200
    jobFuel2 := 0
    jobPolls2 := fun _ => .exn }

theorem claim_C1_witness :
    (TrueNASAPI.delete_tunable c1World (some 1)).putCalls = 1 ∧
      ((TrueNASAPI.delete_tunable c1World (some 1)).success = true ↔
        c1World.putResp = HttpResult.ok 200) :=
  (claim_C1_delete_two_phase c1World (some 1)).2 (by decide)

/-- A delete world whose list endpoint reports the id absent while the
DELETE request itself returns 404 and the disable PUT returns 422. -/
def c6World : DeleteWorld :=
  { deleteResp := .ok 404
    jobFuel1 := 0
    jobPolls1 := fun _ => .exn
    verifyResp := .ok (200, [])
    putResp := .ok 422
    jobFuel2 := 0
    jobPolls2 := fun _ => .exn }

/-- C6 counterexample: the list endpoint reports id 1 absent, yet the
delete neither succeeds nor skips the soft-disable PUT, because the DELETE
request returned 404 and the code only short-circuits when the DELETE
status is 200/204. -/
theorem claim_C6_counterexample :
    listReportsAbsent c6World (some 1) = true ∧
      (TrueNASAPI.delete_tunable c6World (some 1)).putCalls = 1 ∧
      (TrueNASAPI.delete_tunable c6World (some 1)).success = false := by
  decide

/-- C6 (amended): if the DELETE returns 200 or 204 and the follow-up list
(status 200) reports the id absent, the delete succeeds immediately with
"Deleted successfully" and the soft-disable PUT is never issued. -/
theorem claim_C6_already_gone (w : DeleteWorld) (tunable_id : Option Int)
    (status : Nat) (tunables : List RemoteTunable)
    (hd : w.deleteResp = .ok status) (hst : status = 200 ∨ status = 204)
    (hv : w.verifyResp = .ok (200, tunables))
    (ha : tunables.any (fun r => r.id == tunable_id) = false) :
    TrueNASAPI.delete_tunable w tunable_id = ⟨true, "Deleted successfully", 0⟩ := by
  have hst' : (status == 200 || status == 204) = true := by
    rcases hst with h | h <;> simp [h]
  simp [TrueNASAPI.delete_tunable, hd, hv, hst', ha]

/-- A delete world for an id already absent: DELETE 204, list 200/empty. -/
def c6OkWorld : DeleteWorld :=
  { deleteResp := .ok 204
    jobFuel1 := 0
    jobPolls1 := fun _ => .exn
    verifyResp := .ok (200, [])
    putResp := .ok 500
    jobFuel2 := 0
    jobPolls2 := fun _ => .exn }

theorem claim_C6_already_gone_witness :
    TrueNASAPI.delete_tunable c6OkWorld (some 3) = ⟨true, "Deleted successfully", 0⟩ :=
  claim_C6_already_gone c6OkWorld (some 3) 204 [] rfl (Or.inr rfl) rfl (by decide)

/-- C10: when the DELETE returns 200/204 but the verification list request
returns a non-200 status, the disable PUT is still issued exactly once, its
status decides the overall result, and a 200 PUT yields the message
"Disabled successfully". -/
theorem claim_C10_verify_failure_triggers_disable (w : DeleteWorld)
    (tunable_id : Option Int) (status vstatus : Nat)
    (tunables : List RemoteTunable)
    (hd : w.deleteResp = .ok status) (hst : status = 200 ∨ status = 204)
    (hv : w.verifyResp = .ok (vstatus, tunables)) (hvs : vstatus ≠ 200) :
    (TrueNASAPI.delete_tunable w tunable_id).putCalls = 1
    ∧ ((TrueNASAPI.delete_tunable w tunable_id).success = true ↔
        w.putResp = HttpResult.ok 200)
    ∧ (w.putResp = HttpResult.ok 200 →
        (TrueNASAPI.delete_tunable w tunable_id).message = "Disabled successfully") := by
  have hst' : (status == 200 || status == 204) = true := by
    rcases hst with h | h <;> simp [h]
  have hvs' : (vstatus == 200) = false := by simpa using hvs
  cases hpr : w.putResp with
  | exn => simp [TrueNASAPI.delete_tunable, hd, hv, hst', hvs', hpr]
  | ok pstatus =>
    by_cases hp : (pstatus == 200) = true
    · have hp' : pstatus = 200 := by simpa using hp
      simp [TrueNASAPI.delete_tunable, hd, hv, hst', hvs', hpr, hp, hp']
    · have hp' : ¬ pstatus = 200 := by simpa using hp
      simp [TrueNASAPI.delete_tunable, hd, hv, hst', hvs', hpr, hp, hp']

/-- A delete world with a successful DELETE, a 500 on the verification
list, and a successful disable PUT. -/
def c10World : DeleteWorld :=
  { deleteResp := .ok 200
    jobFuel1 := 0
    jobPolls1 := fun _ => .exn
    verifyResp := .ok (500, [])
    putResp := .ok 200
    jobFuel2 := 0
    jobPolls2 := fun _ => .exn }

theorem claim_C10_witness :
    (TrueNASAPI.delete_tunable c10World (some 2)).putCalls = 1
    ∧ ((TrueNASAPI.delete_tunable c10World (some 2)).success = true ↔
        c10World.putResp = HttpResult.ok 200)
    ∧ (c10World.putResp = HttpResult.ok 200 →
        (TrueNASAPI.delete_tunable c10World (some 2)).message = "Disabled successfully") :=
  claim_C10_verify_failure_triggers_disable c10World (some 2) 200 500 []
    rfl (Or.inl rfl) rfl (by decide)

/-! ## Create theorems -/

/-- A create world where the POST succeeds (creation id 7) but the
re-listing GET raises a transport exception. -/
def c5World : CreateWorld :=
  { postResp := .ok (200, .obj (some 7))
    jobFuel := 0
    jobPolls := fun _ => .exn
    listResp := .exn
    errorText := "" }

/-- The spec used by the C5 scenarios. -/
def c5Tunable : Tunable :=
  { name := "vm.swappiness", type := "SYSCTL", value := "1", description := "d" }

/-- C5 counterexample: the POST returned 200 with creation id 7 but the
re-listing GET raises a transport exception; instead of falling back to
the creation-response id with success, the code's outer exception handler
reports failure `(False, None, ...)`. -/
theorem claim_C5_counterexample :
    (TrueNASAPI.create_tunable c5World c5Tunable).1 = false ∧
      (TrueNASAPI.create_tunable c5World c5Tunable).2.1 = none := by
  decide

/-- C5 (amended): after a 200 POST, create re-resolves the id by
re-listing and matching on `var`: a 200 list with a matching entry yields
that entry's id, while a 200 list without a match or a non-200 list yields
the creation-response id, success being reported in all those cases; a
transport exception on the list request instead makes the whole create
report failure. -/
theorem claim_C5_id_reresolution (w : CreateWorld) (t : Tunable)
    (body : PostBody) (hpost : w.postResp = .ok (200, body)) :
    (∀ ts r, w.listResp = .ok (200, ts) →
        ts.find? (fun x => x.var == some t.name) = some r →
        (TrueNASAPI.create_tunable w t).1 = true ∧
          (TrueNASAPI.create_tunable w t).2.1 = r.id)
    ∧ (∀ vstatus ts, w.listResp = .ok (vstatus, ts) →
        (vstatus = 200 → ts.find? (fun x => x.var == some t.name) = none) →
        (TrueNASAPI.create_tunable w t).1 = true ∧
          (TrueNASAPI.create_tunable w t).2.1 = creationIdOf body)
    ∧ (w.listResp = .exn →
        (TrueNASAPI.create_tunable w t).1 = false ∧
          (TrueNASAPI.create_tunable w t).2.1 = none) := by
  refine ⟨?_, ?_, ?_⟩
  · intro ts r hl hf
    simp [TrueNASAPI.create_tunable, hpost, hl, hf]
  · intro vstatus ts hl hf
    by_cases hv : (vstatus == 200) = true
    · have hv' : vstatus = 200 := by simpa using hv
      simp [TrueNASAPI.create_tunable, hpost, hl, hv, hf hv']
    · simp [TrueNASAPI.create_tunable, hpost, hl, hv]
  · intro hl
    simp [TrueNASAPI.create_tunable, hpost, hl]

/-- A create world where the re-listing succeeds and contains the tunable
under a different id (42) than the creation response reported (7). -/
def c5ListWorld : CreateWorld :=
  { postResp := .ok (200, .obj (some 7))
    jobFuel := 0
    jobPolls := fun _ => .exn
    listResp := .ok (200, [⟨some 42, some "vm.swappiness", some "", some true⟩])
    errorText := "" }

theorem claim_C5_id_reresolution_witness :
    (TrueNASAPI.create_tunable c5ListWorld c5Tunable).1 = true ∧
      (TrueNASAPI.create_tunable c5ListWorld c5Tunable).2.1 = some 42 :=
  (claim_C5_id_reresolution c5ListWorld c5Tunable (.obj (some 7)) rfl).1
    [⟨some 42, some "vm.swappiness", some "", some true⟩]
    ⟨some 42, some "vm.swappiness", some "", some true⟩ rfl (by decide)

/-- C7: the comment placed in the creation request body is the description
truncated to 255 characters, so its length never exceeds 255. -/
theorem claim_C7_comment_length (t : Tunable) :
    (createRequestBody t).comment.length ≤ 255 := by
  simp only [createRequestBody]
  rw [String.take_eq, String.mk_length]
  exact List.length_take_le 255 t.description.data

/-! ## Validation workflow theorems -/

theorem validationStep_eq (t : Tunable) (w : SpecWorld) :
    validationStep t w =
      if createOk (t, w) then Sum.inl t
      else Sum.inr (t, "Create failed: " ++
        (TrueNASAPI.create_tunable w.createW t).2.2) := by
  rcases Bool.eq_false_or_eq_true (createOk (t, w)) with hc | hc
  · simp only [validationStep, createOk] at hc ⊢
    simp [hc]
  · simp only [validationStep, createOk] at hc ⊢
    simp [hc]

theorem runValidation_go (pairs : List (Tunable × SpecWorld)) :
    ∀ (a : List Tunable) (b : List (Tunable × String)),
      pairs.foldl accumStep (a, b) =
        (a ++ (pairs.filter createOk).map Prod.fst,
          b ++ (pairs.filter (fun p => !(createOk p))).map invalidEntry) := by
  induction pairs with
  | nil => intro a b; simp
  | cons p rest ih =>
    intro a b
    rcases Bool.eq_false_or_eq_true (createOk p) with hc | hc
    · have hstep : accumStep (a, b) p = (a ++ [p.1], b) := by
        simp only [accumStep, validationStep_eq, hc]
        simp
      rw [List.foldl_cons, hstep, ih]
      simp [hc]
    · have hstep : accumStep (a, b) p = (a, b ++ [invalidEntry p]) := by
        simp only [accumStep, validationStep_eq, hc]
        simp [invalidEntry]
      rw [List.foldl_cons, hstep, ih]
      simp [hc]

/-- C4: the accumulators of the validation loop depend only on the create
outcomes: the valid accumulator collects exactly the specs whose creation
succeeded — whatever the verification or delete/disable phases did — and
the invalid accumulator collects exactly the create failures, so a
delete/disable failure can never move a created spec there. -/
theorem claim_C4_created_stays_valid (pairs : List (Tunable × SpecWorld)) :
    (runValidation pairs).1 = (pairs.filter createOk).map Prod.fst
    ∧ (runValidation pairs).2 =
        (pairs.filter (fun p => !(createOk p))).map invalidEntry := by
  rw [runValidation, runValidation_go pairs [] []]
  simp

/-- C8: the process exit code of a completed validation run is 0 iff the
invalid accumulator is empty, and 1 otherwise. -/
theorem claim_C8_exit_code (pairs : List (Tunable × SpecWorld)) :
    (mainExitCode pairs = 0 ↔ (runValidation pairs).2 = [])
    ∧ (mainExitCode pairs = 1 ↔ (runValidation pairs).2 ≠ []) := by
  cases h : (runValidation pairs).2 with
  | nil => simp [mainExitCode, h]
  | cons x xs => simp [mainExitCode, h]

/-! ## Selective cleanup theorem -/

/-- The example tunable list from the spec's testable property. -/
def c9Tunables : List RemoteTunable :=
  [⟨some 1, some "zfs_arc_max", some "", none⟩,
   ⟨some 2, some "foo", some "test run", none⟩,
   ⟨some 3, some "bar", some "", none⟩]

/-- C9: on the example list, the selective cleanup filter (lowercased
comment contains a keyword, or var in the known performance-tunable name
set) selects exactly the tunables with ids 1 and 2. -/
theorem claim_C9_selective_cleanup :
    (c9Tunables.filter isTestTunable).map (fun t => t.id) = [some 1, some 2] := by
  decide
